import Mathlib

set_option maxRecDepth 8000

/-!
Verification development for the Roam query-block compiler: the recursive-descent
parser (`QueryParser`), the Datalog clause generator (`DatalogGenerator`), the query
and count-query builders, the executor, and the block-extraction utilities, shallowly
embedded from the TypeScript sources (src/query/parser, src/query/generator,
src/query/index). Platform capabilities (the JavaScript Date string parser, the
current clock, the graph query API, reference resolution) are modelled as explicit
environment parameters.
-/

namespace Roam

/-- Left brace character, by code point. -/
def lbrace : Char := Char.ofNat 123

/-- Right brace character, by code point. -/
def rbrace : Char := Char.ofNat 125

/-- Double-quote character, by code point. -/
def dquote : Char := Char.ofNat 34

/-- Backslash character, by code point. -/
def bslash : Char := Char.ofNat 92

/-- Characters matched by the JavaScript regex class backslash-s, the class used by
String.prototype.trim and by the whitespace handling of the parser. -/
def jsWs (c : Char) : Bool :=
  c.toNat == 9 || c.toNat == 10 || c.toNat == 11 || c.toNat == 12 || c.toNat == 13 ||
  c.toNat == 32 || c.toNat == 0xa0 || c.toNat == 0x1680 ||
  (decide (0x2000 ≤ c.toNat) && decide (c.toNat ≤ 0x200a)) ||
  c.toNat == 0x2028 || c.toNat == 0x2029 || c.toNat == 0x202f || c.toNat == 0x205f ||
  c.toNat == 0x3000 || c.toNat == 0xfeff

/-- JavaScript String.prototype.trim on a character list. -/
def jsTrimList (l : List Char) : List Char :=
  ((l.dropWhile jsWs).reverse.dropWhile jsWs).reverse

/-- JavaScript String.prototype.trim. -/
def jsTrim (s : String) : String := ⟨jsTrimList s.toList⟩

/-- ASCII lower-casing of one character; models String.prototype.toLowerCase on the
ASCII inputs this code feeds it. -/
def asciiLower (c : Char) : Char :=
  if 65 ≤ c.toNat && c.toNat ≤ 90 then Char.ofNat (c.toNat + 32) else c

/-- Lower-case every character of a list. -/
def lowerList (l : List Char) : List Char := l.map asciiLower

/-- Lower-case a string (toLowerCase). -/
def lowerStr (s : String) : String := ⟨lowerList s.toList⟩

/-- A positional query argument: the TypeScript type is string or number. -/
inductive QVal where
  | s (v : String)
  | n (v : Int)
deriving Repr, DecidableEq

/-- AST node model (src/query/types.ts QueryNode). `byUser` stands for the source's
`by` variant, which is a keyword in Lean. -/
inductive QueryNode where
  | and (children : List QueryNode)
  | or (children : List QueryNode)
  | not (child : QueryNode)
  | between (startDate endDate : String)
  | tag (value : String)
  | blockRef (uid : String)
  | search (text : String)
  | dailyNotes
  | byUser (user : String)
  | createdBy (user : String)
  | editedBy (user : String)
deriving Repr

/-- Generator output (src/query/types.ts DatalogClauses); `whereClauses` stands for
the source's `where` field, which is a keyword in Lean. -/
structure DatalogClauses where
  whereClauses : List String
  inputs : List String
  inputValues : List QVal
deriving Repr, DecidableEq

/-- The two monotonically increasing counters of a DatalogGenerator instance; reset
at the top of every public generate call. -/
structure GenState where
  refCounter : Nat
  inputCounter : Nat
deriving Repr, DecidableEq

/-- The current local date as the JavaScript Date constructor reports it:
getFullYear, getMonth (0-based) and getDate. A value obtained from `new Date()` is
always normalized, so month < 12 and 1 ≤ day ≤ 31 hold of any real reading. -/
structure NowDate where
  year : Int
  month : Nat
  day : Nat
deriving Repr, DecidableEq

/-- Platform environment of the generator: the current date (the injectable time
source), the constant local-timezone offset used to model local-midnight
timestamps, and the host JavaScript engine's Date-string parser
(`new Date(string).getTime()`, `none` where the host yields NaN). -/
structure GenEnv where
  now : NowDate
  tzOffsetMs : Int
  dateParse : String → Option Int

/-- Gregorian leap-year test. -/
def isLeap (y : Int) : Bool :=
  (y % 4 == 0 && y % 100 != 0) || y % 400 == 0

/-- Number of leap years in the interval from year 1 to year y inclusive (for y ≥ 0;
extended to all integers by the floor divisions). -/
def leapCount (y : Int) : Int := y / 4 - y / 100 + y / 400

/-- Cumulative day count at the start of month m (1-based) in a non-leap year. -/
def monthCum (m : Nat) : Int :=
  match m with
  | 1 => 0 | 2 => 31 | 3 => 59 | 4 => 90 | 5 => 120 | 6 => 151
  | 7 => 181 | 8 => 212 | 9 => 243 | 10 => 273 | 11 => 304 | _ => 334

/-- Days from 1970-01-01 to year y, month m (1..12), day-of-month d. d may fall
outside 1..31: the Date constructor normalizes day overflow by plain day
arithmetic, which this formula reproduces. -/
def daysFromCivil (y : Int) (m : Nat) (d : Int) : Int :=
  365 * (y - 1970) + (leapCount (y - 1) - leapCount 1969) +
    monthCum m + (if isLeap y && decide (3 ≤ m) then 1 else 0) + (d - 1)

/-- getTime of `new Date(y, m, d)` with m 0-based and possibly out of range (the
constructor normalizes month overflow into the year). Local midnight is modelled
with the constant timezone offset tz. -/
def jsDateMs (tz : Int) (y m d : Int) : Int :=
  let m' := m % 12
  let y' := y + (m - m') / 12
  daysFromCivil y' (m'.toNat + 1) d * 86400000 + tz

/-- getDay of the current date (0 = Sunday; 1970-01-01 was a Thursday). -/
def weekdayOf (now : NowDate) : Int :=
  (daysFromCivil now.year (now.month + 1) now.day + 4) % 7

/-- Digits of a decimal numeral to a number (parseInt with radix 10 on an
all-digit string). -/
def digitsToNat (l : List Char) : Nat :=
  l.foldl (fun a c => a * 10 + (c.toNat - 48)) 0

/-- Unit words of the relative-date pattern, in the alternation order of the
source regex. -/
def unitNames : List String := ["day", "week", "month", "year"]

/-- Matcher for the regex pattern of digits, whitespace, a unit word, an optional
plural s, whitespace, and the word ago, anchored at both ends. -/
def agoMatch (l : List Char) : Option (Nat × String) :=
  let digits := l.takeWhile Char.isDigit
  let rest1 := l.dropWhile Char.isDigit
  if digits.isEmpty then none
  else if (rest1.takeWhile jsWs).isEmpty then none
  else
    let rest2 := rest1.dropWhile jsWs
    match unitNames.find? (fun u => u.toList.isPrefixOf rest2) with
    | none => none
    | some u =>
      let afterUnit := rest2.drop u.length
      let afterS := if afterUnit.take 1 = ['s'] then afterUnit.drop 1 else afterUnit
      if (afterS.takeWhile jsWs).isEmpty then none
      else if afterS.dropWhile jsWs = ['a', 'g', 'o'] then some (digitsToNat digits, u)
      else none

/-- DatalogGenerator.subtractFromDate, applied to the start-of-today date
(year y, 0-based month m, day d). -/
def subtractFromDate (tz : Int) (y m d : Int) (amount : Nat) (unit : String) : Int :=
  if unit = "day" then jsDateMs tz y m d - (amount : Int) * 86400000
  else if unit = "week" then jsDateMs tz y m d - (amount : Int) * 7 * 86400000
  else if unit = "month" then jsDateMs tz y (m - (amount : Int)) d
  else if unit = "year" then jsDateMs tz (y - (amount : Int)) m d
  else jsDateMs tz y m d

/-- DatalogGenerator.parseRelativeDate: fixed vocabulary of relative date
expressions evaluated against the start-of-day anchor of the current date. -/
def parseRelativeDate (env : GenEnv) (dateStr : String) : Option Int :=
  let y : Int := env.now.year
  let m : Int := env.now.month
  let d : Int := env.now.day
  let tz := env.tzOffsetMs
  let sot := jsDateMs tz y m d
  if dateStr = "today" then some sot
  else if dateStr = "yesterday" then some (sot - 24 * 60 * 60 * 1000)
  else if dateStr = "tomorrow" then some (sot + 24 * 60 * 60 * 1000)
  else if dateStr = "last week" || dateStr = "a week ago" then
    some (sot - 7 * 24 * 60 * 60 * 1000)
  else if dateStr = "this week" then
    some (sot - weekdayOf env.now * (24 * 60 * 60 * 1000))
  else if dateStr = "next week" then some (sot + 7 * 24 * 60 * 60 * 1000)
  else if dateStr = "last month" || dateStr = "a month ago" then
    some (jsDateMs tz y (m - 1) d)
  else if dateStr = "this month" then some (jsDateMs tz y m 1)
  else if dateStr = "next month" then some (jsDateMs tz y (m + 1) d)
  else if dateStr = "last year" || dateStr = "a year ago" then
    some (jsDateMs tz (y - 1) m d)
  else if dateStr = "this year" then some (jsDateMs tz y 0 1)
  else if dateStr = "next year" then some (jsDateMs tz (y + 1) m d)
  else
    match agoMatch dateStr.toList with
    | some (amount, unit) => some (subtractFromDate tz y m d amount unit)
    | none => none

/-- Ordinal suffixes stripped before calendar-date parsing. -/
def ordSuffixes : List (List Char) := [['s', 't'], ['n', 'd'], ['r', 'd'], ['t', 'h']]

/-- First-occurrence replacement of digits followed by an ordinal suffix with the
digits alone (String.prototype.replace with a non-global regex). -/
def stripOrdinal : List Char → List Char
  | [] => []
  | c :: cs =>
    if c.isDigit then
      let run := c :: cs.takeWhile Char.isDigit
      let rest := cs.dropWhile Char.isDigit
      match ordSuffixes.find? (fun suf => suf.isPrefixOf rest) with
      | some _ => run ++ rest.drop 2
      | none => c :: stripOrdinal cs
    else c :: stripOrdinal cs

/-- DatalogGenerator.roamDateToTimestamp: relative vocabulary first, then
calendar parsing of the ordinal-stripped text, then a fallback parse of the raw
text; a date that resolves nowhere is a generation-time error. -/
def roamDateToTimestamp (env : GenEnv) (dateStr : String) : Except String Int :=
  let normalized := jsTrim (lowerStr dateStr)
  match parseRelativeDate env normalized with
  | some ts => .ok ts
  | none =>
    let cleaned : String := ⟨stripOrdinal dateStr.toList⟩
    match env.dateParse cleaned with
    | some t => .ok t
    | none =>
      match env.dateParse dateStr with
      | some t => .ok t
      | none => .error ("Cannot parse date: " ++ dateStr)

/-- DatalogGenerator.escapeString: double every backslash, then escape every
double quote. -/
def escapeString (str : String) : String :=
  ⟨(str.toList.flatMap fun c => if c = bslash then [bslash, bslash] else [c]).flatMap
    fun c => if c = dquote then [bslash, dquote] else [c]⟩

/-- DatalogGenerator.generateTag. -/
def generateTag (tagName : String) (blockVar : String) (st : GenState) :
    DatalogClauses × GenState :=
  let refVar := "?ref-" ++ toString st.refCounter
  ({ whereClauses :=
      ["[" ++ refVar ++ " :node/title \"" ++ escapeString tagName ++ "\"]",
       "[" ++ blockVar ++ " :block/refs " ++ refVar ++ "]"],
     inputs := [], inputValues := [] },
   { st with refCounter := st.refCounter + 1 })

/-- DatalogGenerator.generateBlockRef. -/
def generateBlockRef (uid : String) (blockVar : String) (st : GenState) :
    DatalogClauses × GenState :=
  let refVar := "?block-ref-" ++ toString st.refCounter
  ({ whereClauses :=
      ["[" ++ refVar ++ " :block/uid \"" ++ escapeString uid ++ "\"]",
       "[" ++ blockVar ++ " :block/refs " ++ refVar ++ "]"],
     inputs := [], inputValues := [] },
   { st with refCounter := st.refCounter + 1 })

/-- DatalogGenerator.generateSearch: the fragment constrains the fixed variable
that the query builder binds to the subject's text; the subject-variable
parameter of the source method is unused. -/
def generateSearch (text : String) (_blockVar : String) (st : GenState) :
    DatalogClauses × GenState :=
  ({ whereClauses :=
      ["[(clojure.string/includes? ?block-str \"" ++ escapeString text ++ "\")]"],
     inputs := [], inputValues := [] }, st)

/-- DatalogGenerator.generateDailyNotes. -/
def generateDailyNotes (blockVar : String) (st : GenState) :
    DatalogClauses × GenState :=
  ({ whereClauses :=
      ["[" ++ blockVar ++ " :block/page ?daily-page]",
       "[?daily-page :node/title ?daily-title]",
       "[(re-find #\"^(January|February|March|April|May|June|July|August|September|October|November|December) \\d\x7b1,2\x7d(st|nd|rd|th), \\d\x7b4\x7d$\" ?daily-title)]"],
     inputs := [], inputValues := [] }, st)

/-- DatalogGenerator.generateBy: disjunctive join over the two attribution
relations against the same display name. -/
def generateBy (user : String) (blockVar : String) (st : GenState) :
    DatalogClauses × GenState :=
  let escapedUser := escapeString user
  ({ whereClauses :=
      ["(or-join [" ++ blockVar ++ "]\n        (and [" ++ blockVar ++
       " :create/user ?by-creator]\n             [?by-creator :user/display-name \"" ++
       escapedUser ++ "\"])\n        (and [" ++ blockVar ++
       " :edit/user ?by-editor]\n             [?by-editor :user/display-name \"" ++
       escapedUser ++ "\"]))"],
     inputs := [], inputValues := [] }, st)

/-- DatalogGenerator.generateUserClause. -/
def generateUserClause (user blockVar attr varName : String) (st : GenState) :
    DatalogClauses × GenState :=
  ({ whereClauses :=
      ["[" ++ blockVar ++ " " ++ attr ++ " ?" ++ varName ++ "]",
       "[?" ++ varName ++ " :user/display-name \"" ++ escapeString user ++ "\"]"],
     inputs := [], inputValues := [] }, st)

/-- DatalogGenerator.generateBetween: allocate the two input variables, resolve
both dates (a resolution failure propagates as a generation error), adjust the
end to end-of-day, and emit the creation-time range fragments. -/
def generateBetween (env : GenEnv) (startDate endDate blockVar : String)
    (st : GenState) : Except String (DatalogClauses × GenState) := do
  let startVar := "?start-date-" ++ toString st.inputCounter
  let endVar := "?end-date-" ++ toString (st.inputCounter + 1)
  let st' := { st with inputCounter := st.inputCounter + 2 }
  let startTs ← roamDateToTimestamp env startDate
  let endTs0 ← roamDateToTimestamp env endDate
  let endTs := endTs0 + (24 * 60 * 60 * 1000 - 1)
  .ok ({ whereClauses :=
          ["[" ++ blockVar ++ " :create/time ?create-time]",
           "[(>= ?create-time " ++ startVar ++ ")]",
           "[(<= ?create-time " ++ endVar ++ ")]"],
         inputs := [startVar, endVar],
         inputValues := [QVal.n startTs, QVal.n endTs] }, st')

/-- The branch a child's fragments contribute to a disjunction: a lone fragment
verbatim, several fragments wrapped in an and-group (the inline conditional of
DatalogGenerator.generateOr, factored out). -/
def orBranch (ws : List String) : String :=
  match ws with
  | [w] => w
  | ws => "(and " ++ String.intercalate " " ws ++ ")"

mutual

/-- DatalogGenerator.generateNode: dispatch on the node kind, threading the
counter state. -/
def generateNode (env : GenEnv) (node : QueryNode) (blockVar : String)
    (st : GenState) : Except String (DatalogClauses × GenState) :=
  match node with
  | .and children => generateAndList env children blockVar st
  | .or children => do
      let (branches, ins, vals, st') ← generateOrBranches env children blockVar st
      .ok ({ whereClauses :=
              ["(or-join [" ++ blockVar ++ "] " ++
               String.intercalate " " branches ++ ")"],
             inputs := ins, inputValues := vals }, st')
  | .not child => do
      let (cc, st') ← generateNode env child blockVar st
      let notContent :=
        match cc.whereClauses with
        | [w] => w
        | ws => "(and " ++ String.intercalate " " ws ++ ")"
      .ok ({ whereClauses := ["(not " ++ notContent ++ ")"],
             inputs := cc.inputs, inputValues := cc.inputValues }, st')
  | .between s e => generateBetween env s e blockVar st
  | .tag v => .ok (generateTag v blockVar st)
  | .blockRef u => .ok (generateBlockRef u blockVar st)
  | .search t => .ok (generateSearch t blockVar st)
  | .dailyNotes => .ok (generateDailyNotes blockVar st)
  | .byUser u => .ok (generateBy u blockVar st)
  | .createdBy u => .ok (generateUserClause u blockVar ":create/user" "creator" st)
  | .editedBy u => .ok (generateUserClause u blockVar ":edit/user" "editor" st)

/-- The accumulation loop of DatalogGenerator.generateAnd: concatenate each
child's fragments and input lists in order. -/
def generateAndList (env : GenEnv) (children : List QueryNode) (blockVar : String)
    (st : GenState) : Except String (DatalogClauses × GenState) :=
  match children with
  | [] => .ok ({ whereClauses := [], inputs := [], inputValues := [] }, st)
  | c :: rest => do
      let (cc, st1) ← generateNode env c blockVar st
      let (acc, st2) ← generateAndList env rest blockVar st1
      .ok ({ whereClauses := cc.whereClauses ++ acc.whereClauses,
             inputs := cc.inputs ++ acc.inputs,
             inputValues := cc.inputValues ++ acc.inputValues }, st2)

/-- The accumulation loop of DatalogGenerator.generateOr: one branch per child
(a lone fragment verbatim, several fragments wrapped in an and-group), inputs
and input values concatenated in child order. -/
def generateOrBranches (env : GenEnv) (children : List QueryNode)
    (blockVar : String) (st : GenState) :
    Except String (List String × List String × List QVal × GenState) :=
  match children with
  | [] => .ok ([], [], [], st)
  | c :: rest => do
      let (cc, st1) ← generateNode env c blockVar st
      let branch := orBranch cc.whereClauses
      let (bs, ins, vals, st2) ← generateOrBranches env rest blockVar st1
      .ok (branch :: bs, cc.inputs ++ ins, cc.inputValues ++ vals, st2)

end

/-- DatalogGenerator.generate: fresh counter scope, subject variable ?b. -/
def DatalogGenerator.generate (env : GenEnv) (node : QueryNode) :
    Except String DatalogClauses :=
  (generateNode env node "?b" { refCounter := 0, inputCounter := 0 }).map (·.1)

/-- Options of buildDatalogQuery; `none` models an undefined property. -/
structure BuildOptions where
  select : Option (List String) := none
  limit : Option Int := none
  offset : Option Int := none
  orderBy : Option String := none
  pageUid : Option String := none

/-- JavaScript truthiness of an optional string: defined and non-empty. -/
def truthyStr (o : Option String) : Option String :=
  match o with
  | some s => if s = "" then none else some s
  | none => none

/-- The :in clause of the main query builder. -/
def mainInClause (clauses : DatalogClauses) (pageUid : Option String) : String :=
  ":in $" ++
    (if clauses.inputs.isEmpty then "" else " " ++ String.intercalate " " clauses.inputs) ++
    (if (truthyStr pageUid).isSome then " ?target-page-uid" else "")

/-- The pagination and ordering modifiers of the main query builder. -/
def mainModifiers (options : BuildOptions) : List String :=
  (match options.limit with
   | some l => if l ≠ -1 then [":limit " ++ toString l] else []
   | none => []) ++
  (if options.offset.getD 0 > 0 then [":offset " ++ toString (options.offset.getD 0)] else []) ++
  (match truthyStr options.orderBy with
   | some ob => [":order " ++ ob]
   | none => [])

/-- The base WHERE clauses of the main query builder, with the page-scope
fragment appended when a page identifier is supplied. -/
def mainBaseClauses (pageUid : Option String) : List String :=
  ["[?b :block/string ?block-str]",
   "[?b :block/uid ?block-uid]",
   "[?b :block/page ?p]",
   "[?p :node/title ?page-title]"] ++
  (if (truthyStr pageUid).isSome then ["[?p :block/uid ?target-page-uid]"] else [])

/-- All WHERE clauses of the main query: base clauses then generated clauses. -/
def mainAllWhere (clauses : DatalogClauses) (pageUid : Option String) : List String :=
  mainBaseClauses pageUid ++ clauses.whereClauses

/-- buildDatalogQuery (src/query/generator.ts): assemble the final query text
and positional argument list. -/
def buildDatalogQuery (clauses : DatalogClauses) (options : BuildOptions) :
    String × List QVal :=
  let select := options.select.getD ["?block-uid", "?block-str", "?page-title"]
  let query :=
    "[:find " ++ String.intercalate " " select ++ "\n                  " ++
    mainInClause clauses options.pageUid ++ " " ++
    String.intercalate " " (mainModifiers options) ++
    "\n                  :where\n                  " ++
    String.intercalate "\n                  " (mainAllWhere clauses options.pageUid) ++ "]"
  let args := clauses.inputValues ++
    (match truthyStr options.pageUid with
     | some uid => [QVal.s uid]
     | none => [])
  (query, args)

/-- The :in clause of QueryExecutor.buildCountQuery. -/
def countInClause (clauses : DatalogClauses) (pageUid : Option String) : String :=
  ":in $" ++
    (if clauses.inputs.isEmpty then "" else " " ++ String.intercalate " " clauses.inputs) ++
    (if (truthyStr pageUid).isSome then " ?target-page-uid" else "")

/-- The base WHERE clauses of the count query builder: the page-title binding of
the main builder is omitted. -/
def countBaseClauses (pageUid : Option String) : List String :=
  ["[?b :block/string ?block-str]",
   "[?b :block/uid ?block-uid]",
   "[?b :block/page ?p]"] ++
  (if (truthyStr pageUid).isSome then ["[?p :block/uid ?target-page-uid]"] else [])

/-- All WHERE clauses of the count query. -/
def countAllWhere (clauses : DatalogClauses) (pageUid : Option String) : List String :=
  countBaseClauses pageUid ++ clauses.whereClauses

/-- QueryExecutor.buildCountQuery: aggregate count of the subject, no
pagination or ordering modifiers. -/
def buildCountQuery (clauses : DatalogClauses) (pageUid : Option String) :
    String × List QVal :=
  let query :=
    "[:find (count ?b)\n                    " ++ countInClause clauses pageUid ++
    "\n                    :where\n                    " ++
    String.intercalate "\n                    " (countAllWhere clauses pageUid) ++ "]"
  let args := clauses.inputValues ++
    (match truthyStr pageUid with
     | some uid => [QVal.s uid]
     | none => [])
  (query, args)

/-- A parse error: message and the violating character offset. Every throw site
of the source parser passes its current position. -/
structure ParseErr where
  message : String
  position : Nat
deriving Repr, DecidableEq

/-- Advance a position past the whitespace run that starts there. -/
def skipWsAt (inp : List Char) (pos : Nat) : Nat :=
  pos + ((inp.drop pos).takeWhile jsWs).length

/-- The character at a position, rendered for an error message (EOF when
reading past the end, as JavaScript undefined-or with a string). -/
def foundCharStr (inp : List Char) (pos : Nat) : String :=
  match inp.get? pos with
  | some c => String.singleton c
  | none => "EOF"

/-- QueryParser.expect: consume one expected character or fail at the current
position. -/
def expectAt (inp : List Char) (pos : Nat) (c : Char) : Except ParseErr Nat :=
  if inp.get? pos = some c then .ok (pos + 1)
  else
    .error ⟨"Expected \x27" ++ String.singleton c ++ "\x27 at position " ++ toString pos ++
            ", found \x27" ++ foundCharStr inp pos ++ "\x27", pos⟩

/-- The depth-counting scan of QueryParser.parseTag: accumulate the tag value
until the matching close of the outermost double bracket; none when the input
ends first. -/
def tagScan : List Char → Nat → List Char → Option (List Char × List Char)
  | ']' :: ']' :: rest, depth, acc =>
      if depth = 1 then some (acc, rest)
      else tagScan rest (depth - 1) (acc ++ [']', ']'])
  | '[' :: '[' :: rest, depth, acc => tagScan rest (depth + 1) (acc ++ ['[', '['])
  | c :: rest, depth, acc => tagScan rest depth (acc ++ [c])
  | [], _, _ => none

/-- QueryParser.parseTag: returns the trimmed tag value and the position after
the closing brackets. -/
def parseTagAt (inp : List Char) (pos : Nat) : Except ParseErr (String × Nat) := do
  let p1 ← expectAt inp pos '['
  let p2 ← expectAt inp p1 '['
  match tagScan (inp.drop p2) 1 [] with
  | some (value, rest) => .ok (jsTrim ⟨value⟩, inp.length - rest.length)
  | none => .error ⟨"Unclosed tag reference", inp.length⟩

/-- The scan of QueryParser.parseBlockRef: accumulate until a double closing
parenthesis or the end of input. -/
def brScan : List Char → List Char → List Char × List Char
  | ')' :: ')' :: rest, acc => (acc, rest)
  | c :: rest, acc => brScan rest (acc ++ [c])
  | [], acc => (acc, [])

/-- QueryParser.parseBlockRef. -/
def parseBlockRefAt (inp : List Char) (pos : Nat) : Except ParseErr (String × Nat) := do
  let p1 ← expectAt inp pos '('
  let p2 ← expectAt inp p1 '('
  let (uid, rest) := brScan (inp.drop p2) []
  let pos' := inp.length - rest.length
  if uid.isEmpty then .error ⟨"Empty block reference", pos'⟩
  else .ok (jsTrim ⟨uid⟩, pos')

/-- The scan of QueryParser.parseQuotedString: backslash-escaped quotes are
unescaped; none when the closing quote is missing. -/
def quotScan : List Char → List Char → Option (List Char × List Char)
  | c :: c2 :: rest, acc =>
    if c = bslash && c2 = dquote then quotScan rest (acc ++ [dquote])
    else if c = dquote then some (acc, c2 :: rest)
    else quotScan (c2 :: rest) (acc ++ [c])
  | [c], acc => if c = dquote then some (acc, []) else none
  | [], _ => none

/-- QueryParser.parseQuotedString. -/
def parseQuotedStringAt (inp : List Char) (pos : Nat) : Except ParseErr (String × Nat) := do
  let p1 ← expectAt inp pos dquote
  match quotScan (inp.drop p1) [] with
  | some (value, rest) => .ok (⟨value⟩, inp.length - rest.length)
  | none => .error ⟨"Unclosed quoted string", inp.length⟩

/-- The quoted-text scan of QueryParser.parseSearch: like the quoted-string scan
but a missing closing quote is tolerated. -/
def searchQuotScan : List Char → List Char → List Char × List Char
  | c :: c2 :: rest, acc =>
    if c = bslash && c2 = dquote then searchQuotScan rest (acc ++ [dquote])
    else if c = dquote then (acc, c2 :: rest)
    else searchQuotScan (c2 :: rest) (acc ++ [c])
  | [c], acc => if c = dquote then (acc, []) else (acc ++ [c], [])
  | [], acc => (acc, [])

/-- QueryParser.parseSearch: double-quoted text taken verbatim, or unquoted text
up to the closing brace, trimmed. -/
def parseSearchAt (inp : List Char) (pos : Nat) : String × Nat :=
  let p := skipWsAt inp pos
  if inp.get? p = some dquote then
    let (text, rest) := searchQuotScan (inp.drop (p + 1)) []
    (⟨text⟩, inp.length - rest.length)
  else
    let text := (inp.drop p).takeWhile (fun c => c ≠ rbrace)
    (jsTrim ⟨text⟩, p + text.length)

/-- QueryParser.parseUserIdentifier: a bracketed reference or plain text up to
the closing brace. -/
def parseUserIdentifierAt (inp : List Char) (pos : Nat) : Except ParseErr (String × Nat) :=
  if (inp.drop pos).take 2 = ['[', '['] then
    parseTagAt inp pos
  else
    let user := (inp.drop pos).takeWhile (fun c => c ≠ rbrace)
    .ok (jsTrim ⟨user⟩, pos + user.length)

/-- Multi-word operator names, matched by prefix lookup before single-identifier
matching. -/
def multiWordOps : List String := ["created by", "edited by", "daily notes"]

/-- QueryParser.parseOperatorName. -/
def parseOperatorNameAt (inp : List Char) (pos : Nat) : String × Nat :=
  let remaining := lowerList (inp.drop pos)
  match multiWordOps.find? (fun op => op.toList.isPrefixOf remaining) with
  | some op => (op, pos + op.length)
  | none =>
    let idChars := (inp.drop pos).takeWhile
      (fun c => (65 ≤ c.toNat && c.toNat ≤ 90) || (97 ≤ c.toNat && c.toNat ≤ 122))
    (⟨idChars⟩, pos + idChars.length)

/-- Termination guard of the embedded recursive-descent parser; unreachable with
the fuel supplied by the top-level parse entry point. -/
def fuelErr : ParseErr := ⟨"parser fuel exhausted", 0⟩

/-- The recursive entry points of the recursive-descent parser, at one fuel
level: parseExpression, parseOperator, parseAndOr, and the child-collection
loop of parseAndOr. -/
structure ParserFns where
  pExpr : Nat → Except ParseErr (QueryNode × Nat)
  pOp : Nat → Except ParseErr (QueryNode × Nat)
  pAndOr : String → Nat → Except ParseErr (List QueryNode × Nat)
  pChildren : Nat → List QueryNode → Except ParseErr (List QueryNode × Nat)

/-- QueryParser.parseExpression, with prev supplying the next-level recursive
calls. -/
def pExprF (inp : List Char) (prev : ParserFns) (pos : Nat) :
    Except ParseErr (QueryNode × Nat) :=
  let p := skipWsAt inp pos
  if inp.get? p = some lbrace then
    prev.pOp p
  else if (inp.drop p).take 2 = ['[', '['] then
    (parseTagAt inp p).map fun (v, p') => (QueryNode.tag v, p')
  else if (inp.drop p).take 2 = ['(', '('] then
    (parseBlockRefAt inp p).map fun (u, p') => (QueryNode.blockRef u, p')
  else
    .error ⟨"Expected \x27\x7b\x27, \x27[[\x27, or \x27((\x27 at position " ++
            toString p ++ ", found: \"" ++ (⟨(inp.drop p).take 10⟩ : String) ++ "...\"", p⟩

/-- QueryParser.parseOperator: operator name, colon, operator-specific body,
closing brace. -/
def pOpF (inp : List Char) (prev : ParserFns) (pos : Nat) :
    Except ParseErr (QueryNode × Nat) := do
  let p1 ← expectAt inp pos lbrace
  let p2 := skipWsAt inp p1
  let (operator, p3) := parseOperatorNameAt inp p2
  let p4 := skipWsAt inp p3
  let p5 ← expectAt inp p4 ':'
  let p6 := skipWsAt inp p5
  let opLower := lowerStr operator
  let (node, p7) ←
    if opLower = "and" then do
      let (children, p') ← prev.pAndOr "and" p6
      pure (QueryNode.and children, p')
    else if opLower = "or" then do
      let (children, p') ← prev.pAndOr "or" p6
      pure (QueryNode.or children, p')
    else if opLower = "not" then do
      let p6' := skipWsAt inp p6
      let (child, p') ← prev.pExpr p6'
      pure (QueryNode.not child, p')
    else if opLower = "between" then do
      let p := skipWsAt inp p6
      let (startV, pa) ← parseTagAt inp p
      let pb := skipWsAt inp pa
      let (endV, pc) ← parseTagAt inp pb
      pure (QueryNode.between startV endV, pc)
    else if opLower = "search" then
      let (text, p') := parseSearchAt inp p6
      pure (QueryNode.search text, p')
    else if opLower = "daily notes" then
      pure (QueryNode.dailyNotes, p6)
    else if opLower = "by" then do
      let p' := skipWsAt inp p6
      let (user, p'') ← parseUserIdentifierAt inp p'
      pure (QueryNode.byUser user, p'')
    else if opLower = "created by" then do
      let p' := skipWsAt inp p6
      let (user, p'') ← parseUserIdentifierAt inp p'
      pure (QueryNode.createdBy user, p'')
    else if opLower = "edited by" then do
      let p' := skipWsAt inp p6
      let (user, p'') ← parseUserIdentifierAt inp p'
      pure (QueryNode.editedBy user, p'')
    else
      .error ⟨"Unknown operator: " ++ operator, p6⟩
  let p8 := skipWsAt inp p7
  let p9 ← expectAt inp p8 rbrace
  .ok (node, p9)

/-- QueryParser.parseAndOr: children until the closing brace; at least one
child is required. -/
def pAndOrF (inp : List Char) (prev : ParserFns) (typ : String) (pos : Nat) :
    Except ParseErr (List QueryNode × Nat) := do
  let p := skipWsAt inp pos
  let (children, p') ← prev.pChildren p []
  if children.isEmpty then
    .error ⟨typ ++ " operator requires at least one child", p'⟩
  else .ok (children, p')

/-- The child-collection loop of QueryParser.parseAndOr. -/
def pChildrenF (inp : List Char) (prev : ParserFns) (pos : Nat)
    (acc : List QueryNode) : Except ParseErr (List QueryNode × Nat) :=
  if pos < inp.length && !(inp.get? pos == some rbrace) then do
    let (child, p1) ← prev.pExpr pos
    let p2 := skipWsAt inp p1
    prev.pChildren p2 (acc ++ [child])
  else .ok (acc, pos)

/-- The fuel-indexed tower of parser functions: every recursive call between the
entry points descends one fuel level, and fuel level zero fails with the
termination guard. -/
def mkParsers (inp : List Char) : Nat → ParserFns
  | 0 =>
    ⟨fun _ => .error fuelErr, fun _ => .error fuelErr,
     fun _ _ => .error fuelErr, fun _ _ => .error fuelErr⟩
  | fuel + 1 =>
    let prev := mkParsers inp fuel
    ⟨pExprF inp prev, pOpF inp prev, pAndOrF inp prev, pChildrenF inp prev⟩

/-- QueryParser.parseExpression at a fuel level. -/
def parseExpressionAt (inp : List Char) (fuel pos : Nat) :
    Except ParseErr (QueryNode × Nat) :=
  (mkParsers inp fuel).pExpr pos

/-- The wrapper marker written before a query expression, as a character list. -/
def wrapperMarkerL : List Char := "\x7b\x7b[[query]]:".toList

/-- QueryParser.extractQueryExpression: strip the wrapper framing when the
trimmed input matches the anchored wrapper pattern, otherwise pass the trimmed
input through. -/
def extractQueryExpression (input : String) : String :=
  let t := jsTrimList input.toList
  if wrapperMarkerL.isPrefixOf t then
    let rest := t.drop wrapperMarkerL.length
    if decide (3 ≤ rest.length) && (rest.drop (rest.length - 2) == [rbrace, rbrace]) then
      ⟨jsTrimList (rest.take (rest.length - 2))⟩
    else (⟨t⟩ : String)
  else (⟨t⟩ : String)

/-- Result of QueryParser.parseWithName. -/
structure ParseResult where
  name : Option String
  query : QueryNode
deriving Repr

/-- QueryParser.parseQueryWithName: unwrap the framing, read an optional quoted
name, parse one expression, and reject trailing content. -/
def parseQueryWithName (input : String) : Except ParseErr ParseResult := do
  let expr := extractQueryExpression input
  let inp := expr.toList
  let fuel := inp.length * 4 + 16
  let p0 := skipWsAt inp 0
  let (name, p1) ←
    if inp.get? p0 = some dquote then do
      let (n, p) ← parseQuotedStringAt inp p0
      pure (some n, skipWsAt inp p)
    else pure (none, p0)
  let (query, p2) ← parseExpressionAt inp fuel p1
  let p3 := skipWsAt inp p2
  if p3 < inp.length then
    .error ⟨"Unexpected content after query: \"" ++ (⟨inp.drop p3⟩ : String) ++ "\"", p3⟩
  else .ok ⟨name, query⟩

/-- QueryParser.parse: the query node of parseWithName; errors propagate. -/
def QueryParser.parse (input : String) : Except ParseErr QueryNode :=
  (parseQueryWithName input).map (·.query)

/-- One result row of a block match. -/
structure QueryMatch where
  block_uid : String
  content : String
  page_title : String
deriving Repr, DecidableEq

/-- QueryResult (src/query/index.ts); `matchList` stands for the source's
`matches` field, which is a reserved word in Lean. -/
structure QueryResult where
  success : Bool
  matchList : List QueryMatch
  message : String
  total_count : Option Int
  query : Option String
deriving Repr, DecidableEq

/-- Execution options of QueryExecutor.execute. -/
structure ExecOptions where
  limit : Option Int := none
  offset : Option Int := none
  orderBy : Option String := none
  pageUid : Option String := none

/-- External capabilities consumed by the executor: the graph query capability,
modelled at its two call sites (the main query returning uid, content and
page-title rows; the count query returning numeric rows), and the
reference-resolution capability. An error value models a rejected promise. -/
structure ExecEnv where
  gen : GenEnv
  runQuery : String → List QVal → Except String (List (String × String × String))
  runCountQuery : String → List QVal → Except String (List (List Int))
  resolveRefs : String → Except String String

/-- The try-block of QueryExecutor.execute: parse, generate, build, run,
resolve references per row, and run the count query when a bounded limit was
requested. Any step's failure surfaces as the error of the whole computation. -/
def executeE (env : ExecEnv) (queryBlock : String) (options : ExecOptions) :
    Except String QueryResult := do
  let ast ← (QueryParser.parse queryBlock).mapError (·.message)
  let clauses ← DatalogGenerator.generate env.gen ast
  let built := buildDatalogQuery clauses
    { limit := options.limit, offset := options.offset, pageUid := options.pageUid,
      orderBy := some (match truthyStr options.orderBy with
                       | some ob => ob
                       | none => "?block-uid asc") }
  let rawResults ← env.runQuery built.1 built.2
  let resolved ← rawResults.mapM fun r => do
    let rc ← env.resolveRefs r.2.1
    pure ({ block_uid := r.1, content := rc, page_title := r.2.2 } : QueryMatch)
  let totalCount ←
    match options.limit with
    | some l =>
      if l ≠ -1 then do
        let cq := buildCountQuery clauses options.pageUid
        let countResults ← env.runCountQuery cq.1 cq.2
        pure (match countResults with
              | (x :: _) :: _ => x
              | _ => (0 : Int))
      else pure (resolved.length : Int)
    | none => pure (resolved.length : Int)
  .ok { success := true, matchList := resolved,
        message := "Found " ++ toString resolved.length ++ " block(s) matching query",
        total_count := some totalCount, query := some built.1 }

/-- QueryExecutor.execute: the catch-all wrapper; a failure of any step degrades
into a success-false result and is never re-raised. -/
def QueryExecutor.execute (env : ExecEnv) (queryBlock : String)
    (options : ExecOptions) : QueryResult :=
  match executeE env queryBlock options with
  | .ok r => r
  | .error msg =>
    { success := false, matchList := [], message := msg,
      total_count := none, query := none }

/-- isQueryBlock (src/query/index.ts): the text begins, after optional leading
whitespace, with the wrapper marker compared case-insensitively. -/
def isQueryBlock (text : String) : Bool :=
  wrapperMarkerL.isPrefixOf (lowerList (text.toList.dropWhile jsWs))

/-- The inner depth-counting loop of extractQueryBlocks: from a depth of 2 just
past the marker, track brace depth until it returns to zero; the consumed
characters and the remainder are returned, or none when the text ends first. -/
def scanClose : Nat → List Char → Option (List Char × List Char)
  | _, [] => none
  | depth, c :: cs =>
    let d' := if c = lbrace then depth + 1 else if c = rbrace then depth - 1 else depth
    if d' = 0 then some ([c], cs)
    else
      match scanClose d' cs with
      | some (cons, rest) => some (c :: cons, rest)
      | none => none

/-- Drop characters until the wrapper marker starts (String.prototype.indexOf of
the marker); none when it does not occur. -/
def dropToMarker : List Char → Option (List Char)
  | [] => none
  | c :: cs =>
    if wrapperMarkerL.isPrefixOf (c :: cs) then some (c :: cs)
    else dropToMarker cs

/-- The outer loop of extractQueryBlocks: find each marker occurrence, match
braces to depth zero, emit the full substring, resume past it. -/
def extractLoop : Nat → List Char → List String
  | 0, _ => []
  | fuel + 1, text =>
    match dropToMarker text with
    | none => []
    | some suffix =>
      match scanClose 2 (suffix.drop wrapperMarkerL.length) with
      | some (consumed, rest) =>
        (⟨suffix.take wrapperMarkerL.length ++ consumed⟩ : String) :: extractLoop fuel rest
      | none => []

/-- extractQueryBlocks (src/query/index.ts). -/
def extractQueryBlocks (text : String) : List String :=
  extractLoop (text.length + 1) text.toList

/-! Derived observation devices and fixed test environments used by the
theorems below. -/

/-- Whether pat occurs as a contiguous sublist of l. -/
def listInfix (pat : List Char) : List Char → Bool
  | [] => pat.isEmpty
  | c :: rest => pat.isPrefixOf (c :: rest) || listInfix pat rest

/-- Whether pat occurs as a substring of s. -/
def strContains (s pat : String) : Bool := listInfix pat.toList s.toList

/-- A fixed generator environment: the clock reads 2026-01-31 local time, the
timezone offset is zero, and the host date parser accepts nothing. -/
def testEnv : GenEnv := ⟨⟨2026, 0, 31⟩, 0, fun _ => none⟩

/-- A fixed executor environment over testEnv whose query capability always
fails and whose reference resolution is the identity. -/
def testExecEnv : ExecEnv :=
  ⟨testEnv, fun _ _ => .error "query capability unavailable",
   fun _ _ => .error "query capability unavailable", fun s => .ok s⟩

/-- Generate each child in order, threading the generator state, and collect
the per-child clause-sets. Derived observation of generateNode, used to state
how the boolean operators combine their children's output. -/
def generateList (env : GenEnv) (children : List QueryNode) (blockVar : String)
    (st : GenState) : Except String (List DatalogClauses × GenState) :=
  match children with
  | [] => .ok ([], st)
  | c :: rest => do
      let (cc, st1) ← generateNode env c blockVar st
      let (cs, st2) ← generateList env rest blockVar st1
      .ok (cc :: cs, st2)

/-- The disjunctive-join construct re-binding the subject variable. -/
def orJoinClause (blockVar : String) (branches : List String) : String :=
  "(or-join [" ++ blockVar ++ "] " ++ String.intercalate " " branches ++ ")"

/-- Modelled from the claim's words for comparison with isQueryBlock: the text
begins, after optional leading whitespace, with the wrapper marker written
exactly (case-sensitively). -/
def beginsWithWrapperCS (text : String) : Bool :=
  wrapperMarkerL.isPrefixOf (text.toList.dropWhile jsWs)

/-! Theorems. -/

/-- Claim C4, counterexample: generating an and-node whose first child is a tag
and whose second is the first block-reference node of the call yields the
block-reference binding variable of index 1, not index 0; block-reference
indices are not drawn from a counter namespace of their own. -/
theorem blockref_counter_counterexample :
    DatalogGenerator.generate testEnv
      (QueryNode.and [QueryNode.tag "a", QueryNode.blockRef "u"]) =
      .ok { whereClauses :=
              ["[?ref-0 :node/title \"a\"]", "[?b :block/refs ?ref-0]",
               "[?block-ref-1 :block/uid \"u\"]", "[?b :block/refs ?block-ref-1]"],
            inputs := [], inputValues := [] } ∧
    ¬ ("[?block-ref-0 :block/uid \"u\"]" ∈
        ["[?ref-0 :node/title \"a\"]", "[?b :block/refs ?ref-0]",
         "[?block-ref-1 :block/uid \"u\"]", "[?b :block/refs ?block-ref-1]"]) := by
  exact ⟨rfl, by decide⟩

/-- Claim C4, amended: block-reference nodes draw their binding-variable index
from the same reference counter as tag nodes (the k-th allocation over tags and
block-references combined gets index k-1), and a block-reference emits the same
two-fragment shape as a tag but binds by unique identifier instead of title. -/
theorem blockref_shares_tag_counter :
    (∀ env uid blockVar st,
      generateNode env (QueryNode.blockRef uid) blockVar st =
        .ok ({ whereClauses :=
                ["[" ++ ("?block-ref-" ++ toString st.refCounter) ++
                 " :block/uid \"" ++ escapeString uid ++ "\"]",
                 "[" ++ blockVar ++ " :block/refs " ++
                 ("?block-ref-" ++ toString st.refCounter) ++ "]"],
               inputs := [], inputValues := [] },
             { st with refCounter := st.refCounter + 1 })) ∧
    (∀ env v blockVar st,
      generateNode env (QueryNode.tag v) blockVar st =
        .ok ({ whereClauses :=
                ["[" ++ ("?ref-" ++ toString st.refCounter) ++
                 " :node/title \"" ++ escapeString v ++ "\"]",
                 "[" ++ blockVar ++ " :block/refs " ++
                 ("?ref-" ++ toString st.refCounter) ++ "]"],
               inputs := [], inputValues := [] },
             { st with refCounter := st.refCounter + 1 })) := by
  exact ⟨fun env u bv st => rfl, fun env v bv st => rfl⟩

/-- Claim C9: each category of structural violation (an unclosed bracket, an
unknown operator name, an empty boolean operator, trailing content after a
fully parsed expression) raises a parse error carrying the violating character
offset. -/
theorem parse_rejects_structural_violations :
    QueryParser.parse "[[unclosed" = .error ⟨"Unclosed tag reference", 10⟩ ∧
    QueryParser.parse "\x7bunknown: [[tag]]\x7d" =
      .error ⟨"Unknown operator: unknown", 10⟩ ∧
    QueryParser.parse "\x7band: \x7d" =
      .error ⟨"and operator requires at least one child", 6⟩ ∧
    QueryParser.parse "[[a]] extra" =
      .error ⟨"Unexpected content after query: \"extra\"", 6⟩ := by
  exact ⟨rfl, rfl, rfl, rfl⟩

/-- Claim C10: the clause-set generated for a search node does not depend on the
subject-variable name passed in; the single emitted fragment constrains the
fixed text variable, which only the query builder's first base fragment binds
to the subject. -/
theorem search_fragment_subject_independent :
    (∀ env text bv₁ bv₂ st,
      generateNode env (QueryNode.search text) bv₁ st =
        generateNode env (QueryNode.search text) bv₂ st) ∧
    (∀ env text bv st,
      generateNode env (QueryNode.search text) bv st =
        .ok ({ whereClauses :=
                ["[(clojure.string/includes? ?block-str \"" ++
                 escapeString text ++ "\")]"],
               inputs := [], inputValues := [] }, st)) ∧
    (∀ pu, (mainBaseClauses pu).head? = some "[?b :block/string ?block-str]") := by
  refine ⟨fun env text bv₁ bv₂ st => rfl, fun env text bv st => rfl, fun pu => rfl⟩

/-- Claim C8, counterexample: isQueryBlock accepts a case variant of the
wrapper marker, so it is not equivalent to beginning with the wrapper marker
written exactly. -/
theorem is_query_block_counterexample :
    isQueryBlock "\x7b\x7b[[QUERY]]: [[a]]\x7d\x7d" = true ∧
    beginsWithWrapperCS "\x7b\x7b[[QUERY]]: [[a]]\x7d\x7d" = false := by
  exact ⟨rfl, rfl⟩

/-- An exactly lower-case pattern that prefixes a list also prefixes its
lower-casing. -/
theorem isPrefixOf_lowerList (p : List Char) (hp : lowerList p = p) :
    ∀ l : List Char, p.isPrefixOf l = true → p.isPrefixOf (lowerList l) = true := by
  induction p with
  | nil => intro l _; simp [List.isPrefixOf]
  | cons a as ih =>
    intro l h
    cases l with
    | nil => simp [List.isPrefixOf] at h
    | cons b bs =>
      simp only [List.isPrefixOf, Bool.and_eq_true, beq_iff_eq] at h
      obtain ⟨rfl, h2⟩ := h
      simp only [lowerList, List.map_cons] at hp ⊢
      obtain ⟨ha, has⟩ := List.cons.injEq .. ▸ hp
      have has' : lowerList as = as := has
      simp only [List.isPrefixOf, ha, beq_self_eq_true, Bool.true_and]
      exact ih has' bs h2

/-- Claim C8, amended: isQueryBlock is true exactly when the text begins, after
optional leading whitespace, with the wrapper marker compared
case-insensitively; in particular a text beginning with the exactly written
marker is still accepted. -/
theorem is_query_block_iff :
    (∀ text, isQueryBlock text = true ↔
      wrapperMarkerL.isPrefixOf (lowerList (text.toList.dropWhile jsWs)) = true) ∧
    (∀ text, beginsWithWrapperCS text = true → isQueryBlock text = true) := by
  constructor
  · intro text; exact Iff.rfl
  · intro text h
    exact isPrefixOf_lowerList wrapperMarkerL (by decide) _ h

/-- Witness for is_query_block_iff at a concrete text beginning with the
exactly written wrapper marker. -/
theorem is_query_block_iff_witness :
    isQueryBlock "\x7b\x7b[[query]]: [[a]]\x7d\x7d" = true := by
  exact is_query_block_iff.2 "\x7b\x7b[[query]]: [[a]]\x7d\x7d" rfl

/-- The clause-set generated for the and of the Project and TODO tags. -/
def projTodoClauses : DatalogClauses :=
  { whereClauses :=
      ["[?ref-0 :node/title \"Project\"]", "[?b :block/refs ?ref-0]",
       "[?ref-1 :node/title \"TODO\"]", "[?b :block/refs ?ref-1]"],
    inputs := [], inputValues := [] }

/-- Claim C5: the builder prepends the four base fragments before the generated
fragments; a supplied page-scope identifier adds one base fragment, one input
variable and exactly one argument equal to the identifier; an unspecified limit
or a limit of -1 produces no limit modifier; and the Project-and-TODO example
with limit 50 yields a projection clause, a where-section, a limit modifier of
50 and an empty argument list. -/
theorem build_query_structure :
    (mainBaseClauses none =
      ["[?b :block/string ?block-str]", "[?b :block/uid ?block-uid]",
       "[?b :block/page ?p]", "[?p :node/title ?page-title]"]) ∧
    (∀ uid : String, uid ≠ "" →
      mainBaseClauses (some uid) =
        ["[?b :block/string ?block-str]", "[?b :block/uid ?block-uid]",
         "[?b :block/page ?p]", "[?p :node/title ?page-title]",
         "[?p :block/uid ?target-page-uid]"]) ∧
    (∀ clauses pu, mainAllWhere clauses pu = mainBaseClauses pu ++ clauses.whereClauses) ∧
    (∀ clauses uid select limit offset orderBy, uid ≠ "" →
      (buildDatalogQuery clauses ⟨select, limit, offset, orderBy, some uid⟩).2 =
        clauses.inputValues ++ [QVal.s uid] ∧
      mainInClause clauses (some uid) =
        mainInClause clauses none ++ " ?target-page-uid") ∧
    (∀ opts : BuildOptions, opts.limit = none ∨ opts.limit = some (-1) →
      ∀ m ∈ mainModifiers opts, (":limit".toList).isPrefixOf m.toList = false) ∧
    (QueryParser.parse "\x7band: [[Project]] [[TODO]]\x7d" =
      .ok (QueryNode.and [QueryNode.tag "Project", QueryNode.tag "TODO"]) ∧
     DatalogGenerator.generate testEnv
       (QueryNode.and [QueryNode.tag "Project", QueryNode.tag "TODO"]) =
       .ok projTodoClauses ∧
     strContains (buildDatalogQuery projTodoClauses
       { limit := some 50 }).1 "[:find ?block-uid ?block-str ?page-title" = true ∧
     strContains (buildDatalogQuery projTodoClauses { limit := some 50 }).1 ":where" = true ∧
     strContains (buildDatalogQuery projTodoClauses { limit := some 50 }).1 ":limit 50" = true ∧
     (buildDatalogQuery projTodoClauses { limit := some 50 }).2 = []) := by
  refine ⟨rfl, ?_, fun clauses pu => rfl, ?_, ?_, rfl, rfl, by decide, by decide, by decide, rfl⟩
  · intro uid h
    simp [mainBaseClauses, truthyStr, h]
  · intro clauses uid select limit offset orderBy h
    constructor
    · simp [buildDatalogQuery, truthyStr, h]
    · simp [mainInClause, truthyStr, h, String.append_empty]
  · intro opts h m hm
    have hm' : m ∈ (if opts.offset.getD 0 > 0
          then [":offset " ++ toString (opts.offset.getD 0)] else []) ++
        (match truthyStr opts.orderBy with
         | some ob => [":order " ++ ob]
         | none => []) := by
      rcases h with h | h <;> simpa [mainModifiers, h] using hm
    rcases List.mem_append.mp hm' with hmem | hmem
    · by_cases hc : opts.offset.getD 0 > 0
      · rw [if_pos hc, List.mem_singleton] at hmem
        subst hmem
        simp [String.data_append, List.isPrefixOf]
      · rw [if_neg hc] at hmem
        exact absurd hmem (List.not_mem_nil m)
    · cases htr : truthyStr opts.orderBy with
      | none => rw [htr] at hmem; exact absurd hmem (List.not_mem_nil m)
      | some ob =>
        rw [htr, List.mem_singleton] at hmem
        subst hmem
        simp [String.data_append, List.isPrefixOf]

/-- Witness for build_query_structure: the page-scoped base clauses, the single
extra argument, and the absence of a limit modifier at concrete inputs. -/
theorem build_query_structure_witness :
    mainBaseClauses (some "abc") =
      ["[?b :block/string ?block-str]", "[?b :block/uid ?block-uid]",
       "[?b :block/page ?p]", "[?p :node/title ?page-title]",
       "[?p :block/uid ?target-page-uid]"] ∧
    (buildDatalogQuery projTodoClauses
      ⟨none, none, none, none, some "abc"⟩).2 =
      projTodoClauses.inputValues ++ [QVal.s "abc"] ∧
    (":limit".toList).isPrefixOf (":offset 5").toList = false := by
  refine ⟨build_query_structure.2.1 "abc" (by decide),
    (build_query_structure.2.2.2.1 projTodoClauses "abc" none none none none
      (by decide)).1,
    build_query_structure.2.2.2.2.1 ⟨none, none, some 5, none, none⟩ (Or.inl rfl)
      ":offset 5" (by decide)⟩

/-- Claim C6: the count query carries the same generated where-fragments and
the same argument list as the main query built from the same clause-set, omits
the page-title base fragment (index 3 of the main where-list), projects an
aggregate count of the subject instead of a projection list, and carries no
limit, offset or order modifier. -/
theorem count_query_structure :
    (∀ clauses pu limit offset orderBy,
      (buildCountQuery clauses pu).2 =
        (buildDatalogQuery clauses ⟨none, limit, offset, orderBy, pu⟩).2) ∧
    (∀ clauses pu, countAllWhere clauses pu = (mainAllWhere clauses pu).eraseIdx 3) ∧
    (∀ clauses pu, (mainAllWhere clauses pu).get? 3 = some "[?p :node/title ?page-title]") ∧
    (∀ clauses pu, clauses.whereClauses <:+ countAllWhere clauses pu) ∧
    (∀ clauses pu, (buildCountQuery clauses pu).1.toList.take 17 =
      "[:find (count ?b)".toList) ∧
    (strContains (buildCountQuery projTodoClauses none).1 ":limit" = false ∧
     strContains (buildCountQuery projTodoClauses none).1 ":offset" = false ∧
     strContains (buildCountQuery projTodoClauses none).1 ":order" = false) := by
  refine ⟨fun clauses pu limit offset orderBy => rfl,
    fun clauses pu => rfl,
    fun clauses pu => rfl,
    fun clauses pu => ⟨countBaseClauses pu, rfl⟩,
    ?_, by decide, by decide, by decide⟩
  intro clauses pu
  show (String.toList
    ("[:find (count ?b)\n                    " ++ countInClause clauses pu ++
      "\n                    :where\n                    " ++
      String.intercalate "\n                    " (countAllWhere clauses pu) ++ "]")).take 17 =
    "[:find (count ?b)".toList
  simp only [String.toList, String.data_append]
  rw [List.append_assoc, List.append_assoc, List.append_assoc,
    List.take_append_of_le_length (by decide)]
  decide

/-- The or-accumulation loop equals the per-child clause-sets mapped to
branches, with inputs and input values flattened in child order. -/
theorem generateOrBranches_eq (env : GenEnv) (blockVar : String) :
    ∀ (children : List QueryNode) (st : GenState),
      generateOrBranches env children blockVar st =
        (generateList env children blockVar st).map fun p =>
          (p.1.map fun c => orBranch c.whereClauses,
           (p.1.map DatalogClauses.inputs).flatten,
           (p.1.map DatalogClauses.inputValues).flatten, p.2) := by
  intro children
  induction children with
  | nil => intro st; rfl
  | cons c rest ih =>
    intro st
    simp only [generateOrBranches, generateList, bind, Except.bind]
    cases hn : generateNode env c blockVar st with
    | error e => rfl
    | ok p =>
      obtain ⟨cc, st1⟩ := p
      simp only [ih st1]
      cases hr : generateList env rest blockVar st1 with
      | error e => rfl
      | ok q =>
        obtain ⟨cs, st2⟩ := q
        simp [Except.map, List.flatten]

/-- Claim C3: an or-node's generation returns exactly one fragment, the
disjunctive join over one branch per child (a child's lone fragment verbatim,
several fragments wrapped in an and-group), re-binding the shared subject
variable; the inputs and input values are the concatenation of the children's
in child order. The or of two tags yields exactly one or-join fragment. -/
theorem or_generation :
    (∀ env children blockVar st cls st', children ≠ [] →
      generateList env children blockVar st = .ok (cls, st') →
      generateNode env (QueryNode.or children) blockVar st =
        .ok ({ whereClauses :=
                [orJoinClause blockVar (cls.map fun c => orBranch c.whereClauses)],
               inputs := (cls.map DatalogClauses.inputs).flatten,
               inputValues := (cls.map DatalogClauses.inputValues).flatten }, st')) ∧
    (QueryParser.parse "\x7bor: [[a]] [[b]]\x7d" =
      .ok (QueryNode.or [QueryNode.tag "a", QueryNode.tag "b"]) ∧
     DatalogGenerator.generate testEnv
       (QueryNode.or [QueryNode.tag "a", QueryNode.tag "b"]) =
       .ok { whereClauses :=
               ["(or-join [?b] (and [?ref-0 :node/title \"a\"] [?b :block/refs ?ref-0]) (and [?ref-1 :node/title \"b\"] [?b :block/refs ?ref-1]))"],
             inputs := [], inputValues := [] }) := by
  refine ⟨?_, rfl, rfl⟩
  intro env children blockVar st cls st' _ hgen
  show (do
      let (branches, ins, vals, st'') ← generateOrBranches env children blockVar st
      Except.ok ({ whereClauses :=
                    ["(or-join [" ++ blockVar ++ "] " ++
                     String.intercalate " " branches ++ ")"],
                   inputs := ins, inputValues := vals }, st'')) =
    (Except.ok _ : Except String (DatalogClauses × GenState))
  rw [generateOrBranches_eq env blockVar children st, hgen]
  rfl

/-- Witness for or_generation at the or of two concrete tags. -/
theorem or_generation_witness :
    generateNode testEnv (QueryNode.or [QueryNode.tag "a", QueryNode.tag "b"]) "?b"
      ⟨0, 0⟩ =
      .ok ({ whereClauses :=
              [orJoinClause "?b"
                (([{ whereClauses :=
                      ["[?ref-0 :node/title \"a\"]", "[?b :block/refs ?ref-0]"],
                     inputs := [], inputValues := [] },
                   { whereClauses :=
                      ["[?ref-1 :node/title \"b\"]", "[?b :block/refs ?ref-1]"],
                     inputs := [], inputValues := [] }] : List DatalogClauses).map
                  fun c => orBranch c.whereClauses)],
             inputs := ([] : List (List String)).flatten,
             inputValues := ([] : List (List QVal)).flatten }, ⟨2, 0⟩) := by
  have h := or_generation.1 testEnv [QueryNode.tag "a", QueryNode.tag "b"] "?b" ⟨0, 0⟩
    [{ whereClauses := ["[?ref-0 :node/title \"a\"]", "[?b :block/refs ?ref-0]"],
       inputs := [], inputValues := [] },
     { whereClauses := ["[?ref-1 :node/title \"b\"]", "[?b :block/refs ?ref-1]"],
       inputs := [], inputValues := [] }] ⟨2, 0⟩ (by simp) rfl
  exact h

/-- The difference of consecutive leap-year counts is one exactly at a leap
year. -/
theorem leapCount_succ (y : Int) :
    leapCount y - leapCount (y - 1) = if isLeap y then 1 else 0 := by
  unfold leapCount
  cases hL : isLeap y with
  | true =>
    rw [if_pos rfl]
    simp only [isLeap, Bool.or_eq_true, Bool.and_eq_true, beq_iff_eq, bne_iff_ne] at hL
    rcases hL with ⟨h1, h2⟩ | h3 <;> omega
  | false =>
    rw [if_neg (by simp)]
    simp only [isLeap, Bool.or_eq_false_iff, Bool.and_eq_false_iff, beq_eq_false_iff_ne,
      bne_eq_false_iff_eq, ne_eq] at hL
    obtain ⟨h12, h3⟩ := hL
    rcases h12 with h4 | h100 <;> omega

/-- Calendar-unit month subtraction moves strictly backward: the Date
constructor timestamp of (y, m-1, d) is below that of (y, m, d) for every
normalized month, including January, where the year boundary is crossed. -/
theorem jsDateMs_prev_month_lt (tz y : Int) (m : Nat) (d : Int) (hm : m < 12) :
    jsDateMs tz y ((m : Int) - 1) d < jsDateMs tz y (m : Int) d := by
  interval_cases m
  · simp only [jsDateMs, daysFromCivil]
    norm_num
    have e : y + -1 = y - 1 := by ring
    rw [e]
    have h := leapCount_succ (y - 1)
    simp only [show Int.toNat 11 + 1 = 12 from rfl, show monthCum 12 = 334 from rfl,
      show monthCum 1 = 0 from rfl, show (3 : Nat) ≤ 12 from by omega, and_true]
    by_cases hI : isLeap (y - 1) = true
    · simp only [hI, if_pos] at h ⊢
      omega
    · simp only [hI, if_neg, if_false] at h ⊢
      omega
  all_goals
    simp only [jsDateMs, daysFromCivil]
    norm_num [show Int.toNat 0 = 0 from rfl, show Int.toNat 1 = 1 from rfl,
      show Int.toNat 2 = 2 from rfl, show Int.toNat 3 = 3 from rfl,
      show Int.toNat 4 = 4 from rfl, show Int.toNat 5 = 5 from rfl,
      show Int.toNat 6 = 6 from rfl, show Int.toNat 7 = 7 from rfl,
      show Int.toNat 8 = 8 from rfl, show Int.toNat 9 = 9 from rfl,
      show Int.toNat 10 = 10 from rfl, show Int.toNat 11 = 11 from rfl, monthCum]
    try omega

/-- Resolution of the relative expression last month: one calendar month before
the current date. -/
theorem roamDate_lastMonth (env : GenEnv) :
    roamDateToTimestamp env "last month" =
      .ok (jsDateMs env.tzOffsetMs env.now.year ((env.now.month : Int) - 1)
            env.now.day) := rfl

/-- Resolution of the relative expression today: start of the current day. -/
theorem roamDate_today (env : GenEnv) :
    roamDateToTimestamp env "today" =
      .ok (jsDateMs env.tzOffsetMs env.now.year (env.now.month : Int)
            env.now.day) := rfl

/-- When both dates of a between node resolve, generation allocates the two
input variables and emits the creation-time range fragments with the end value
adjusted to end-of-day. -/
theorem generateBetween_resolved (env : GenEnv) (s e bv : String) (st : GenState)
    (ts1 ts2 : Int) (h1 : roamDateToTimestamp env s = .ok ts1)
    (h2 : roamDateToTimestamp env e = .ok ts2) :
    generateNode env (QueryNode.between s e) bv st =
      .ok ({ whereClauses :=
              ["[" ++ bv ++ " :create/time ?create-time]",
               "[(>= ?create-time " ++ ("?start-date-" ++ toString st.inputCounter) ++ ")]",
               "[(<= ?create-time " ++ ("?end-date-" ++ toString (st.inputCounter + 1)) ++ ")]"],
             inputs := ["?start-date-" ++ toString st.inputCounter,
                        "?end-date-" ++ toString (st.inputCounter + 1)],
             inputValues := [QVal.n ts1, QVal.n (ts2 + (24 * 60 * 60 * 1000 - 1))] },
           { st with inputCounter := st.inputCounter + 2 }) := by
  show generateBetween env s e bv st = _
  simp only [generateBetween, h1, h2, bind, Except.bind]

/-- Claim C2: a between node whose two dates resolve yields exactly two input
variables with two numeric input values, the end value being the end date's
resolved timestamp plus one day minus one millisecond, and fragments binding
the subject's creation time between the two; for between last-month and today
the two input values satisfy start < end. -/
theorem between_generation :
    (∀ env s e bv st ts1 ts2,
      roamDateToTimestamp env s = .ok ts1 →
      roamDateToTimestamp env e = .ok ts2 →
      generateNode env (QueryNode.between s e) bv st =
        .ok ({ whereClauses :=
                ["[" ++ bv ++ " :create/time ?create-time]",
                 "[(>= ?create-time " ++ ("?start-date-" ++ toString st.inputCounter) ++ ")]",
                 "[(<= ?create-time " ++ ("?end-date-" ++ toString (st.inputCounter + 1)) ++ ")]"],
               inputs := ["?start-date-" ++ toString st.inputCounter,
                          "?end-date-" ++ toString (st.inputCounter + 1)],
               inputValues := [QVal.n ts1, QVal.n (ts2 + (24 * 60 * 60 * 1000 - 1))] },
             { st with inputCounter := st.inputCounter + 2 })) ∧
    (∀ env bv st, env.now.month < 12 →
      ∃ s e, (generateNode env (QueryNode.between "last month" "today") bv st).map
          (fun p => p.1.inputValues) = .ok [QVal.n s, QVal.n e] ∧ s < e) := by
  constructor
  · exact fun env s e bv st ts1 ts2 h1 h2 =>
      generateBetween_resolved env s e bv st ts1 ts2 h1 h2
  · intro env bv st hm
    refine ⟨jsDateMs env.tzOffsetMs env.now.year ((env.now.month : Int) - 1) env.now.day,
      jsDateMs env.tzOffsetMs env.now.year (env.now.month : Int) env.now.day +
        (24 * 60 * 60 * 1000 - 1), ?_, ?_⟩
    · rw [generateBetween_resolved env "last month" "today" bv st _ _
        (roamDate_lastMonth env) (roamDate_today env)]
      rfl
    · have h := jsDateMs_prev_month_lt env.tzOffsetMs env.now.year env.now.month
        env.now.day hm
      omega

/-- Witness for between_generation at the fixed clock of testEnv. -/
theorem between_generation_witness :
    generateNode testEnv (QueryNode.between "today" "today") "?b" ⟨0, 0⟩ =
      .ok ({ whereClauses :=
              ["[?b :create/time ?create-time]",
               "[(>= ?create-time ?start-date-0)]",
               "[(<= ?create-time ?end-date-1)]"],
             inputs := ["?start-date-0", "?end-date-1"],
             inputValues := [QVal.n 1769817600000, QVal.n 1769903999999] }, ⟨0, 2⟩) ∧
    (∃ s e, (generateNode testEnv (QueryNode.between "last month" "today") "?b"
        ⟨0, 0⟩).map (fun p => p.1.inputValues) = .ok [QVal.n s, QVal.n e] ∧ s < e) := by
  constructor
  · exact between_generation.1 testEnv "today" "today" "?b" ⟨0, 0⟩
      1769817600000 1769817600000 rfl rfl
  · exact between_generation.2 testEnv "?b" ⟨0, 0⟩ (by decide)

/-- A consumed region reported by the depth scan closes exactly at its own end:
rescanning it from the same depth consumes all of it. -/
theorem scanClose_self (input : List Char) : ∀ (d : Nat) (cons rest : List Char),
    scanClose d input = some (cons, rest) → scanClose d cons = some (cons, []) := by
  induction input with
  | nil => intro d cons rest h; simp [scanClose] at h
  | cons c cs ih =>
    intro d cons rest h
    simp only [scanClose] at h
    by_cases hd : (if c = lbrace then d + 1 else if c = rbrace then d - 1 else d) = 0
    · rw [if_pos hd] at h
      obtain ⟨rfl, rfl⟩ := Prod.mk.injEq .. ▸ Option.some.injEq .. ▸ h
      simp [scanClose, hd]
    · rw [if_neg hd] at h
      cases hsc : scanClose (if c = lbrace then d + 1
          else if c = rbrace then d - 1 else d) cs with
      | none => rw [hsc] at h; cases h
      | some pr =>
        obtain ⟨cons', rest'⟩ := pr
        rw [hsc] at h
        obtain ⟨rfl, rfl⟩ := Prod.mk.injEq .. ▸ Option.some.injEq .. ▸ h
        have hin := ih _ _ _ hsc
        simp [scanClose, hd, hin]

/-- The suffix found by the marker search begins with the marker. -/
theorem dropToMarker_starts (l : List Char) :
    ∀ s, dropToMarker l = some s → wrapperMarkerL.isPrefixOf s = true := by
  induction l with
  | nil => intro s h; cases h
  | cons c cs ih =>
    intro s h
    simp only [dropToMarker] at h
    by_cases hp : wrapperMarkerL.isPrefixOf (c :: cs) = true
    · rw [if_pos hp] at h
      cases h
      exact hp
    · rw [if_neg hp] at h
      exact ih s h

/-- Taking the length of a boolean prefix recovers it. -/
theorem take_of_isPrefixOf : ∀ (p l : List Char),
    p.isPrefixOf l = true → l.take p.length = p := by
  intro p
  induction p with
  | nil => intro l _; rfl
  | cons a as ih =>
    intro l h
    cases l with
    | nil => simp [List.isPrefixOf] at h
    | cons b bs =>
      simp only [List.isPrefixOf, Bool.and_eq_true, beq_iff_eq] at h
      obtain ⟨rfl, h2⟩ := h
      simp [List.take, ih bs h2]

/-- Every string the extraction loop emits is the marker followed by a body
whose brace depth, counted from 2, first returns to zero exactly at its end. -/
theorem extractLoop_mem : ∀ (fuel : Nat) (text : List Char) (m : String),
    m ∈ extractLoop fuel text →
    ∃ body, m.toList = wrapperMarkerL ++ body ∧
      scanClose 2 body = some (body, []) := by
  intro fuel
  induction fuel with
  | zero => intro text m h; cases h
  | succ f ih =>
    intro text m h
    simp only [extractLoop] at h
    cases hdm : dropToMarker text with
    | none => rw [hdm] at h; cases h
    | some suffix =>
      rw [hdm] at h
      simp only at h
      cases hsc : scanClose 2 (suffix.drop wrapperMarkerL.length) with
      | none => rw [hsc] at h; simp only at h; cases h
      | some pr =>
        obtain ⟨consumed, rest⟩ := pr
        rw [hsc] at h
        simp only at h
        rcases List.mem_cons.mp h with rfl | hm
        · refine ⟨consumed, ?_, scanClose_self _ 2 consumed rest hsc⟩
          show suffix.take wrapperMarkerL.length ++ consumed = _
          rw [take_of_isPrefixOf wrapperMarkerL suffix (dropToMarker_starts text suffix hdm)]
        · exact ih rest m hm

/-- Claim C7: extractQueryBlocks returns, for each marker occurrence, the full
substring from the marker to the point where brace depth (counted from 2 just
past the marker) first returns to zero, resuming just past each match; on a
text with two wrapper occurrences, one containing a nested between clause with
internal braces, it returns exactly the two full outer substrings. -/
theorem extract_blocks_depth_matched :
    (∀ text m, m ∈ extractQueryBlocks text →
      ∃ body, m.toList = wrapperMarkerL ++ body ∧
        scanClose 2 body = some (body, [])) ∧
    extractQueryBlocks
      "foo \x7b\x7b[[query]]: \x7band: [[a]] \x7bbetween: [[x]] [[y]]\x7d\x7d\x7d\x7d bar \x7b\x7b[[query]]: [[b]]\x7d\x7d baz" =
      ["\x7b\x7b[[query]]: \x7band: [[a]] \x7bbetween: [[x]] [[y]]\x7d\x7d\x7d\x7d",
       "\x7b\x7b[[query]]: [[b]]\x7d\x7d"] := by
  exact ⟨fun text m h => extractLoop_mem _ _ _ h, rfl⟩

/-- Witness for extract_blocks_depth_matched at a concrete extracted block. -/
theorem extract_blocks_depth_matched_witness :
    ∃ body, ("\x7b\x7b[[query]]: [[b]]\x7d\x7d" : String).toList =
      wrapperMarkerL ++ body ∧ scanClose 2 body = some (body, []) := by
  exact extract_blocks_depth_matched.1
    "foo \x7b\x7b[[query]]: \x7band: [[a]] \x7bbetween: [[x]] [[y]]\x7d\x7d\x7d\x7d bar \x7b\x7b[[query]]: [[b]]\x7d\x7d baz"
    "\x7b\x7b[[query]]: [[b]]\x7d\x7d" (by decide)

/-- A successful run of the executor pipeline reports success. -/
theorem executeE_ok_success (env : ExecEnv) (qb : String) (opts : ExecOptions)
    (r : QueryResult) : executeE env qb opts = .ok r → r.success = true := by
  intro h
  simp only [executeE, bind, Except.bind] at h
  repeat' split at h
  all_goals (cases h <;> rfl)

/-- Claim C1: the top-level execute never raises; when any step of the pipeline
(parse, date resolution, query building, the external query capability,
reference resolution, the count query) fails, the returned value is the
success-false result with an empty match list carrying the failure message. -/
theorem executor_catches_failures :
    (∀ env queryBlock options e,
      executeE env queryBlock options = .error e →
      QueryExecutor.execute env queryBlock options =
        { success := false, matchList := [], message := e,
          total_count := none, query := none }) ∧
    (∀ env queryBlock options,
      (QueryExecutor.execute env queryBlock options).success = false →
      (QueryExecutor.execute env queryBlock options).matchList = [] ∧
      (QueryExecutor.execute env queryBlock options).total_count = none) := by
  constructor
  · intro env qb opts e h
    simp [QueryExecutor.execute, h]
  · intro env qb opts hs
    cases hx : executeE env qb opts with
    | ok r =>
      have htrue := executeE_ok_success env qb opts r hx
      rw [QueryExecutor.execute, hx] at hs
      simp only at hs
      rw [htrue] at hs
      simp at hs
    | error e =>
      rw [QueryExecutor.execute, hx]
      exact ⟨rfl, rfl⟩

/-- Witness for executor_catches_failures: a parse failure degrades into the
success-false shape. -/
theorem executor_catches_failures_witness :
    executeE testExecEnv "[[unclosed" ⟨none, none, none, none⟩ =
      .error "Unclosed tag reference" ∧
    QueryExecutor.execute testExecEnv "[[unclosed" ⟨none, none, none, none⟩ =
      { success := false, matchList := [], message := "Unclosed tag reference",
        total_count := none, query := none } ∧
    (QueryExecutor.execute testExecEnv "[[unclosed" ⟨none, none, none, none⟩).matchList = [] ∧
    (QueryExecutor.execute testExecEnv "[[unclosed" ⟨none, none, none, none⟩).total_count = none := by
  refine ⟨rfl, executor_catches_failures.1 testExecEnv "[[unclosed"
    ⟨none, none, none, none⟩ "Unclosed tag reference" rfl,
    executor_catches_failures.2 testExecEnv "[[unclosed" ⟨none, none, none, none⟩ rfl⟩

end Roam
